import Mathlib

/-!
Shallow embedding of the YouTube Music subscription manager
(src/main.rs, src/youtube.rs in the repository under verification).

Strings are Lean `String`s.  The Rust string primitives the program uses
(`to_lowercase`, `str::contains`, `trim`, `lines`, `starts_with`, `len`)
are modelled structurally over the character list `String.data`, so that
every definition evaluates by kernel reduction.  Case mapping and
whitespace are modelled per character with `Char.toLower` and
`Char.isWhitespace` (exact for the ASCII inputs the program's own test
suite exercises).  Rust `str::len` is the UTF-8 byte count, modelled by
`String.utf8ByteSize`.  Network and database effects are modelled by
explicit parameters (per-name resolution oracles, per-attempt call
outcomes, an explicit cache-database value).
-/

/-- Rust `str::starts_with(c: char)`: tests whether the first character is `c`. -/
def rust_starts_with_char (s : String) (c : Char) : Bool :=
  match s.data with
  | [] => false
  | a :: _ => a == c

/-- Rust `str::to_lowercase`, modelled per character (exact on ASCII). -/
def rust_to_lowercase (s : String) : String :=
  String.mk (s.data.map Char.toLower)

/-- Character-list prefix test: `chars_begins_with p s` holds when `p` begins `s`. -/
def chars_begins_with : List Char → List Char → Bool
  | [], _ => true
  | _ :: _, [] => false
  | p :: ps, c :: cs => p == c && chars_begins_with ps cs

/-- Substring occurrence on character lists: does `pat` occur contiguously inside `hay`? -/
def chars_has_sub (hay pat : List Char) : Bool :=
  match hay with
  | [] => pat.isEmpty
  | _ :: rest => chars_begins_with pat hay || chars_has_sub rest pat

/-- Rust `str::contains(&str)`: contiguous substring occurrence. -/
def rust_contains_str (s pat : String) : Bool :=
  chars_has_sub s.data pat.data

/-- Rust `str::contains(char)`. -/
def rust_contains_char (s : String) (c : Char) : Bool :=
  s.data.contains c

/-- Rust `str::trim`: strip whitespace from both ends. -/
def rust_trim (s : String) : String :=
  String.mk (((s.data.dropWhile Char.isWhitespace).reverse.dropWhile Char.isWhitespace).reverse)

/-- Rust `str::is_empty`. -/
def rust_is_empty (s : String) : Bool :=
  s.data.isEmpty

/-- Splits a character list at every occurrence of `sep`, keeping empty segments. -/
def chars_split (sep : Char) : List Char → List Char → List String
  | [], acc => [String.mk acc.reverse]
  | c :: cs, acc =>
    if c == sep then String.mk acc.reverse :: chars_split sep cs []
    else chars_split sep cs (c :: acc)

/-- Rust `str::lines`: split on the newline character.  (Rust drops one trailing
empty segment and strips a final carriage return; both differences are invisible
to the artists-file parser, which trims every line and skips blank ones.) -/
def rust_lines (content : String) : List String :=
  chars_split (Char.ofNat 10) content.data []

/-- `Artist` record, youtube.rs lines 12-18. -/
structure Artist where
  name : String
  channel_id : String
  subscriber_count : Option Nat
  description : Option String
deriving DecidableEq

/-- One line of the artists file, youtube.rs lines 753-769: trim the line, skip
it when blank or a `#` comment, cut the name off before the first `|` and trim
again, and skip the entry (with a warning) when the resulting name is empty.
Returns `none` exactly for the skipped lines. -/
def line_name (rawLine : String) : Option String :=
  let line := rust_trim rawLine
  if rust_is_empty line || rust_starts_with_char line (Char.ofNat 35) then none
  else
    let artistName :=
      if rust_contains_char line (Char.ofNat 124) then
        rust_trim (String.mk (line.data.takeWhile (fun c => c != Char.ofNat 124)))
      else line
    if rust_is_empty artistName then none
    else some artistName

/-- The line loop of `parse_artists_file`, youtube.rs lines 753-776: skipped
lines contribute nothing, a name longer than 100 bytes aborts the whole parse
with an error, and every other name is appended in order.  `lineNum` is the
1-based line number used in the error message. -/
def parse_artists_lines : List String → Nat → Except String (List String)
  | [], _ => Except.ok []
  | rawLine :: rest, lineNum =>
    match line_name rawLine with
    | none => parse_artists_lines rest (lineNum + 1)
    | some artistName =>
      if artistName.utf8ByteSize > 100 then
        Except.error ("Artist name too long on line " ++ toString lineNum ++ ": " ++ artistName)
      else
        match parse_artists_lines rest (lineNum + 1) with
        | Except.ok artists => Except.ok (artistName :: artists)
        | Except.error e => Except.error e

/-- `parse_artists_file`, youtube.rs lines 750-779. -/
def parse_artists_file (content : String) : Except String (List String) :=
  parse_artists_lines (rust_lines content) 1

/-- Whether a parse result is the error outcome. -/
def is_parse_error : Except String (List String) → Bool
  | Except.ok _ => false
  | Except.error _ => true

/-- Whether one line of the artists file stays within the 100-byte name limit
(vacuously true for lines the parser skips). -/
def line_within_limit (rawLine : String) : Bool :=
  match line_name rawLine with
  | some nm => decide (nm.utf8ByteSize ≤ 100)
  | none => true

/-- `generate_search_variations`, youtube.rs lines 500-522: the name itself,
eight fixed augmentations, and, only when the name contains no space
character, the two extra variants `"<name>band"` and `"The <name>"`. -/
def generate_search_variations (artistName : String) : List String :=
  [artistName,
   artistName ++ " band", artistName ++ " music", artistName ++ " official",
   artistName ++ " channel", artistName ++ "VEVO", artistName ++ " VEVO",
   artistName ++ " - Topic", artistName ++ "Topic"]
  ++ (if rust_contains_char artistName (Char.ofNat 32) then []
      else [artistName ++ "band", "The " ++ artistName])

/-- The match policy of `parse_api_search_results` (youtube.rs lines 645-647)
and `parse_search_results` (lines 609-611): case-insensitive equality, the
title containing the target, or the target containing the title. -/
def title_matches (title artistName : String) : Bool :=
  rust_to_lowercase title == rust_to_lowercase artistName
  || rust_contains_str (rust_to_lowercase title) (rust_to_lowercase artistName)
  || rust_contains_str (rust_to_lowercase artistName) (rust_to_lowercase title)

/-- One item of the remote search response: the fields
`item["snippet"]["title"]`, `item["id"]["channelId"]` and
`item["snippet"]["description"]`, each of which may be absent. -/
structure SearchItem where
  title : Option String
  channelId : Option String
  description : Option String
deriving DecidableEq

/-- The per-item body of `parse_api_search_results`, youtube.rs lines 640-658:
an item is accepted when both title and channel id are present and the title
matches the policy; the accepted artist carries the candidate title, the
channel id, no subscriber count, and the item's description. -/
def item_accepts (item : SearchItem) (artistName : String) : Option Artist :=
  match item.title, item.channelId with
  | some title, some channelId =>
    if title_matches title artistName then
      some { name := title, channel_id := channelId, subscriber_count := none,
             description := item.description }
    else none
  | _, _ => none

/-- `parse_api_search_results`, youtube.rs lines 637-665: scan the items in
remote-result order and return on the first accepted candidate. -/
def parse_api_search_results : List SearchItem → String → Option Artist
  | [], _ => none
  | item :: rest, artistName =>
    match item_accepts item artistName with
    | some artist => some artist
    | none => parse_api_search_results rest artistName

/-- The variant loop of `search_artist_with_verbose`, youtube.rs lines 533-559:
try each search term in order; a transport error is propagated immediately, the
first hit is returned immediately, and a miss moves on to the next variant. -/
def search_variants_loop (trySearch : String → Except String (Option Artist)) :
    List String → Except String (Option Artist)
  | [] => Except.ok none
  | searchTerm :: rest =>
    match trySearch searchTerm with
    | Except.error e => Except.error e
    | Except.ok (some artist) => Except.ok (some artist)
    | Except.ok none => search_variants_loop trySearch rest

/-- `search_artist_with_verbose`, youtube.rs lines 528-563, with the per-term
remote search abstracted as `trySearch`. -/
def search_artist_with_verbose (trySearch : String → Except String (Option Artist))
    (artistName : String) : Except String (Option Artist) :=
  search_variants_loop trySearch (generate_search_variations artistName)

/-- One row of the `artist_cache` table, youtube.rs lines 182-192.
`cached_at` is a timestamp in seconds. -/
structure CacheRow where
  search_name : String
  name : String
  channel_id : String
  subscriber_count : Option Nat
  description : Option String
  cached_at : Nat
deriving DecidableEq

/-- The cache database: either the connection cannot be opened (an I/O error)
or it holds a list of rows (at most one per `search_name`, by primary key). -/
inductive CacheDb where
  | unavailable
  | store (rows : List CacheRow)

/-- The SQL freshness filter `cached_at > datetime(now, -N days)` of
youtube.rs lines 202-207, with times in seconds. -/
def row_is_fresh (expiryDays now : Nat) (row : CacheRow) : Bool :=
  decide (now < row.cached_at + expiryDays * 86400)

/-- `get_cached_artist`, youtube.rs lines 198-224: opening the connection can
fail (the `?` propagates the error); otherwise the first fresh row for the key
is returned, or `none` when there is no such row. -/
def get_cached_artist (db : CacheDb) (expiryDays now : Nat) (searchName : String) :
    Except String (Option Artist) :=
  match db with
  | CacheDb.unavailable => Except.error "unable to open database"
  | CacheDb.store rows =>
    match rows.find? (fun row => row.search_name == searchName
                                 && row_is_fresh expiryDays now row) with
    | some row => Except.ok (some { name := row.name, channel_id := row.channel_id,
                                    subscriber_count := row.subscriber_count,
                                    description := row.description })
    | none => Except.ok none

/-- The cache-consultation step of `get_subscriptions_with_pagination`,
youtube.rs lines 381-401: with force-update the cache is bypassed; otherwise a
fresh hit is used and both a miss and a lookup error (which is only warned
about) fall through to the search path. -/
def cache_check (db : CacheDb) (expiryDays now : Nat) (forceUpdate : Bool)
    (channelName : String) : Option Artist :=
  if forceUpdate then none
  else
    match get_cached_artist db expiryDays now channelName with
    | Except.ok (some artist) => some artist
    | Except.ok none => none
    | Except.error _ => none

/-- `get_mock_subscriptions`, youtube.rs lines 479-498. -/
def mock_subscriptions : List Artist :=
  [{ name := "Let\x27s Get Rusty", channel_id := "mock_id_1", subscriber_count := none,
     description := some "Rust programming tutorials (mock data)" },
   { name := "Marques Brownlee", channel_id := "mock_id_2", subscriber_count := none,
     description := some "Technology reviews (mock data)" }]

/-- The artists-file argument of `get_subscriptions_with_pagination`: absent,
unreadable, or readable with the given text. -/
inductive FileSource where
  | unreadable
  | content (text : String)

/-- The channel-list selection of `get_subscriptions_with_pagination`,
youtube.rs lines 321-346: no file means the config artists; an unreadable or
unparsable file yields `none`, which the caller turns into the mock fallback. -/
def target_channels (configArtists : List String) (file : Option FileSource) :
    Option (List String) :=
  match file with
  | none => some configArtists
  | some FileSource.unreadable => none
  | some (FileSource.content text) =>
    match parse_artists_file text with
    | Except.ok artists => some artists
    | Except.error _ => none

/-- `get_subscriptions_with_pagination`, youtube.rs lines 320-477.  The
per-name pipeline of the loop body (cache consultation, timeout-bounded
search, detail enrichment; lines 374-467) is abstracted as `resolve`, which
yields the artist pushed for a name, or `none` when the name times out, is not
found, or errors (all of which just skip the item).  The `force_update` and
`verbose` flags only select the pipeline inside `resolve` and the printing, so
they do not appear.  `has_more` is computed from the length of the requested
page slice (line 359); an empty resolved batch falls back to mock data
(lines 469-473). -/
def get_subscriptions_with_pagination (configArtists : List String)
    (file : Option FileSource) (resolve : String → Option Artist)
    (offset limit : Nat) : List Artist × Bool × Nat :=
  match target_channels configArtists file with
  | none => (mock_subscriptions, false, mock_subscriptions.length)
  | some allChannels =>
    let totalChannels := allChannels.length
    let pageChannels := (allChannels.drop offset).take limit
    if pageChannels.isEmpty then ([], false, totalChannels)
    else
      let hasMore := decide (offset + pageChannels.length < totalChannels)
      let artists := pageChannels.filterMap resolve
      if artists.isEmpty then (mock_subscriptions, false, mock_subscriptions.length)
      else (artists, hasMore, totalChannels)

/-- `get_my_subscriptions`, youtube.rs lines 246-259: exactly the artist list
of `get_subscriptions_with_pagination(0, 1000, None, false, false)` over the
config artists. -/
def get_my_subscriptions (configArtists : List String)
    (resolve : String → Option Artist) : List Artist :=
  (get_subscriptions_with_pagination configArtists none resolve 0 1000).1

/-- The target-list acquisition of `cmd_sync`, main.rs lines 214-229:
a missing/unreadable file and a parse failure abort the run, otherwise the
parsed list (or the config list) is used. -/
def cmd_sync_targets (file : Option FileSource) (configArtists : List String) :
    Except String (List String) :=
  match file with
  | none => Except.ok configArtists
  | some FileSource.unreadable => Except.error "Artists file not found"
  | some (FileSource.content text) => parse_artists_file text

/-- The partition loop of `cmd_sync`, main.rs lines 241-250: each target goes
to `already_subscribed` when its lowercased form is in the lowercased current
names, and to `to_subscribe` otherwise, preserving target order. -/
def plan_partition (currentNames : List String) : List String → List String × List String
  | [] => ([], [])
  | target :: rest =>
    let plan := plan_partition currentNames rest
    if currentNames.contains (rust_to_lowercase target) then (target :: plan.1, plan.2)
    else (plan.1, target :: plan.2)

/-- The sync plan of `cmd_sync`, main.rs lines 234-250: the current names are
the lowercased names of the current subscriptions (main.rs lines 235-238). -/
def plan_sync (currentSubscriptions : List Artist) (targetArtists : List String) :
    List String × List String :=
  plan_partition (currentSubscriptions.map (fun a => rust_to_lowercase a.name)) targetArtists

/-- Outcome of one remote `subscriptions().insert` call. -/
inductive CallResult where
  | ok
  | err (msg : String)

/-- The failure classes of the error-message dispatch. -/
inductive SubErrClass where
  | quotaClass
  | permissionClass
  | notFoundClass
  | duplicateClass
  | serverClass
  | otherClass
deriving DecidableEq

/-- The error-message classification chain of
`subscribe_to_channel_with_retry`, youtube.rs lines 701-727, in source order:
quota/rate-limit, forbidden/403, channel-not-found/404, duplicate
subscription, backend/internal, anything else. -/
def classify_sub_error (errorMsg : String) : SubErrClass :=
  if rust_contains_str errorMsg "quotaExceeded"
     || rust_contains_str errorMsg "rateLimitExceeded" then SubErrClass.quotaClass
  else if rust_contains_str errorMsg "forbidden"
     || rust_contains_str errorMsg "403" then SubErrClass.permissionClass
  else if rust_contains_str errorMsg "channelNotFound"
     || rust_contains_str errorMsg "404" then SubErrClass.notFoundClass
  else if rust_contains_str errorMsg "subscriptionDuplicate"
     || rust_contains_str errorMsg "already subscribed" then SubErrClass.duplicateClass
  else if rust_contains_str errorMsg "backend"
     || rust_contains_str errorMsg "internal" then SubErrClass.serverClass
  else SubErrClass.otherClass

/-- The surfaced outcome of `subscribe_to_channel_with_retry`. -/
inductive SubOutcome where
  | success
  | quotaExceeded
  | permissionDenied
  | channelNotFound
  | serverError
  | otherFailure
  | exhausted
deriving DecidableEq

/-- Result of a subscribe run: the surfaced outcome, the list of backoff
sleeps (in milliseconds, in order), and the number of API calls performed. -/
structure RetryTrace where
  outcome : SubOutcome
  delays : List Nat
  attempts : Nat
deriving DecidableEq

/-- The retry loop `for attempt in 0..max_retries` of
`subscribe_to_channel_with_retry`, youtube.rs lines 686-733, with the remote
call abstracted as `call attempt` and the loop expressed by the remaining
iteration count `fuel` (entered with `fuel = maxRetries`, so that
`fuel = maxRetries - attempt` throughout).  Quota-class failures back off
`2^attempt * 1000` ms and retry while `attempt < maxRetries - 1`, then surface
quota-exceeded; server-class failures back off `1000 + attempt * 500` ms the
same way; permission, not-found and other classes fail immediately; a
duplicate-subscription failure returns success; falling out of the loop
(only possible with `maxRetries = 0`) is the final exhausted bail. -/
def subscribe_go (call : Nat → CallResult) (maxRetries : Nat) : Nat → Nat → RetryTrace
  | _, 0 => { outcome := SubOutcome.exhausted, delays := [], attempts := 0 }
  | attempt, fuel + 1 =>
    match call attempt with
    | CallResult.ok => { outcome := SubOutcome.success, delays := [], attempts := 1 }
    | CallResult.err errorMsg =>
      match classify_sub_error errorMsg with
      | SubErrClass.quotaClass =>
        if attempt < maxRetries - 1 then
          let rest := subscribe_go call maxRetries (attempt + 1) fuel
          { outcome := rest.outcome, delays := 2 ^ attempt * 1000 :: rest.delays,
            attempts := rest.attempts + 1 }
        else { outcome := SubOutcome.quotaExceeded, delays := [], attempts := 1 }
      | SubErrClass.permissionClass =>
        { outcome := SubOutcome.permissionDenied, delays := [], attempts := 1 }
      | SubErrClass.notFoundClass =>
        { outcome := SubOutcome.channelNotFound, delays := [], attempts := 1 }
      | SubErrClass.duplicateClass =>
        { outcome := SubOutcome.success, delays := [], attempts := 1 }
      | SubErrClass.serverClass =>
        if attempt < maxRetries - 1 then
          let rest := subscribe_go call maxRetries (attempt + 1) fuel
          { outcome := rest.outcome, delays := (1000 + attempt * 500) :: rest.delays,
            attempts := rest.attempts + 1 }
        else { outcome := SubOutcome.serverError, delays := [], attempts := 1 }
      | SubErrClass.otherClass =>
        { outcome := SubOutcome.otherFailure, delays := [], attempts := 1 }

/-- `subscribe_to_channel_with_retry`, youtube.rs lines 671-734. -/
def subscribe_to_channel_with_retry (call : Nat → CallResult) (maxRetries : Nat) : RetryTrace :=
  subscribe_go call maxRetries 0 maxRetries

/-- Whether a cache lookup result is the error outcome. -/
def is_cache_error : Except String (Option Artist) → Bool
  | Except.error _ => true
  | Except.ok _ => false

/-- Resolution oracle for the C3 counterexample: the name "A" resolves, the
name "B" does not. -/
def c3_resolve : String → Option Artist := fun n =>
  if n == "A" then
    some { name := "A", channel_id := "idA", subscriber_count := none, description := none }
  else none

/-- The concrete page of the C3 counterexample: two targets, offset 0,
limit 2, one of the two names unresolved. -/
def c3_page : List Artist × Bool × Nat :=
  get_subscriptions_with_pagination ["A", "B"] none c3_resolve 0 2

/-- `chars_begins_with` decides the prefix relation. -/
theorem chars_begins_with_iff : ∀ p s : List Char, chars_begins_with p s = true ↔ p <+: s
  | [], s => by simp [chars_begins_with]
  | p :: ps, [] => by simp [chars_begins_with]
  | p :: ps, c :: cs => by
    simp [chars_begins_with, chars_begins_with_iff ps cs, List.cons_prefix_cons]

/-- `chars_has_sub` decides the contiguous-substring (infix) relation. -/
theorem chars_has_sub_iff : ∀ hay pat : List Char, chars_has_sub hay pat = true ↔ pat <:+: hay
  | [], pat => by
    simp [chars_has_sub, List.isEmpty_iff, List.infix_nil]
  | c :: rest, pat => by
    simp [chars_has_sub, Bool.or_eq_true, chars_begins_with_iff pat (c :: rest),
      chars_has_sub_iff rest pat, List.infix_cons_iff]

/-- The Rust substring test decides the infix relation on character lists. -/
theorem rust_contains_str_iff (s pat : String) :
    rust_contains_str s pat = true ↔ pat.data <:+: s.data := by
  simp [rust_contains_str, chars_has_sub_iff]

/-- The partition loop returns the two complementary filters of the targets. -/
theorem plan_partition_eq (currentNames : List String) (ts : List String) :
    plan_partition currentNames ts =
      (ts.filter (fun t => currentNames.contains (rust_to_lowercase t)),
       ts.filter (fun t => !currentNames.contains (rust_to_lowercase t))) := by
  induction ts with
  | nil => rfl
  | cons t rest ih =>
    simp only [plan_partition, ih, List.filter_cons]
    cases hc : currentNames.contains (rust_to_lowercase t) <;> simp [hc]

/-- Complementary filters split occurrence counts. -/
theorem count_filter_split (p : String → Bool) (x : String) (l : List String) :
    ((l.filter p).count x) + ((l.filter (fun a => !p a)).count x) = l.count x := by
  induction l with
  | nil => rfl
  | cons a rest ih =>
    cases hp : p a <;> simp [List.filter_cons, hp, List.count_cons, ih] <;> omega

/-- Claim C1: for every set of current subscriptions and every ordered target
sequence, the sync plan partitions the targets exactly: occurrence counts add
up (no overlap, no omission), membership in each side is decided by
case-insensitive comparison against the current names, and both output
sequences preserve the relative order of the targets (they are sublists). -/
theorem plan_sync_partition (current : List Artist) (targets : List String) :
    (∀ x : String,
      (plan_sync current targets).1.count x + (plan_sync current targets).2.count x
        = targets.count x)
    ∧ (∀ x : String, x ∈ (plan_sync current targets).1 ↔
        x ∈ targets ∧ rust_to_lowercase x ∈ current.map (fun a => rust_to_lowercase a.name))
    ∧ (∀ x : String, x ∈ (plan_sync current targets).2 ↔
        x ∈ targets ∧ rust_to_lowercase x ∉ current.map (fun a => rust_to_lowercase a.name))
    ∧ (plan_sync current targets).1.Sublist targets
    ∧ (plan_sync current targets).2.Sublist targets := by
  unfold plan_sync
  rw [plan_partition_eq]
  refine ⟨fun x => count_filter_split _ x targets, fun x => ?_, fun x => ?_, ?_, ?_⟩
  · simp [List.mem_filter]
  · simp [List.mem_filter]
  · exact List.filter_sublist targets
  · exact List.filter_sublist targets

/-- Claim C4: the match policy accepts a candidate title exactly when,
case-insensitively, the title equals the target, the title contains the
target, or the target contains the title; the scan returns the first
candidate (in remote-result order) accepted by the policy, and an accepted
result is unaffected by any later candidates or later search variants. -/
theorem match_policy_first_candidate :
    (∀ title artistName : String,
      title_matches title artistName = true ↔
        (rust_to_lowercase title = rust_to_lowercase artistName
          ∨ (rust_to_lowercase artistName).data <:+: (rust_to_lowercase title).data
          ∨ (rust_to_lowercase title).data <:+: (rust_to_lowercase artistName).data))
    ∧ (∀ (items : List SearchItem) (artistName : String),
        parse_api_search_results items artistName =
          items.findSome? (fun item => item_accepts item artistName))
    ∧ (∀ (items extra : List SearchItem) (artistName : String) (a : Artist),
        parse_api_search_results items artistName = some a →
        parse_api_search_results (items ++ extra) artistName = some a)
    ∧ (∀ (trySearch : String → Except String (Option Artist))
         (variants extra : List String) (a : Artist),
        search_variants_loop trySearch variants = Except.ok (some a) →
        search_variants_loop trySearch (variants ++ extra) = Except.ok (some a)) := by
  refine ⟨fun title artistName => ?_, fun items artistName => ?_,
    fun items extra artistName a => ?_, fun trySearch variants extra a => ?_⟩
  · simp [title_matches, Bool.or_eq_true, rust_contains_str_iff, or_assoc]
  · induction items with
    | nil => rfl
    | cons item rest ih =>
      cases h : item_accepts item artistName <;>
        simp [parse_api_search_results, List.findSome?_cons, h, ih]
  · induction items with
    | nil => intro h; simp [parse_api_search_results] at h
    | cons item rest ih =>
      intro h
      cases hi : item_accepts item artistName <;>
        simp_all [parse_api_search_results, hi]
  · induction variants with
    | nil => intro h; simp [search_variants_loop] at h
    | cons term rest ih =>
      intro h
      cases ht : trySearch term with
      | error e => simp_all [search_variants_loop, ht]
      | ok r => cases r <;> simp_all [search_variants_loop, ht]

/-- Witness for C4: the first candidate `"Muse - Topic"` is accepted for the
target `"Muse"`, and appending a further candidate does not change the
accepted result. -/
theorem match_policy_first_candidate_witness :
    parse_api_search_results
        ([{ title := some "Muse - Topic", channelId := some "UC1", description := none }]
          ++ [{ title := some "Other", channelId := some "UC2", description := none }]) "Muse" =
      some { name := "Muse - Topic", channel_id := "UC1", subscriber_count := none,
             description := none } :=
  match_policy_first_candidate.2.2.1
    [{ title := some "Muse - Topic", channelId := some "UC1", description := none }]
    [{ title := some "Other", channelId := some "UC2", description := none }]
    "Muse" _ (by decide)

/-- Counterexample to C2 as stated: with every attempt failing quota-class and
`max_retries = 3`, the code performs three attempts but sleeps only twice —
1000 ms and 2000 ms; the claimed third delay of 4000 ms never occurs because
the final attempt bails out without sleeping. -/
theorem subscribe_quota_delays_counterexample :
    subscribe_to_channel_with_retry (fun _ => CallResult.err "quotaExceeded") 3 =
      { outcome := SubOutcome.quotaExceeded, delays := [1000, 2000], attempts := 3 }
    ∧ (subscribe_to_channel_with_retry (fun _ => CallResult.err "quotaExceeded") 3).delays
        ≠ [1000, 2000, 4000] := by
  constructor <;> decide

/-- Claim C2 (amended): if every one of the three attempts fails with a
quota/rate-limit-class error and `max_retries = 3`, then exactly three
attempts are performed, with backoff delays of 1000 ms and 2000 ms
(`delay = 2^attempt * 1000` ms after failing attempts 0 and 1; no delay after
the final attempt), before a quota-exceeded error is surfaced. -/
theorem subscribe_quota_three_attempts (call : Nat → CallResult)
    (h : ∀ n, n < 3 → ∃ msg, call n = CallResult.err msg
          ∧ classify_sub_error msg = SubErrClass.quotaClass) :
    subscribe_to_channel_with_retry call 3 =
      { outcome := SubOutcome.quotaExceeded, delays := [1000, 2000], attempts := 3 } := by
  obtain ⟨m0, e0, c0⟩ := h 0 (by omega)
  obtain ⟨m1, e1, c1⟩ := h 1 (by omega)
  obtain ⟨m2, e2, c2⟩ := h 2 (by omega)
  simp [subscribe_to_channel_with_retry, subscribe_go, e0, c0, e1, c1, e2, c2]

/-- Witness for C2 (amended): the constant quota-exceeded call at
`max_retries = 3`. -/
theorem subscribe_quota_three_attempts_witness :
    subscribe_to_channel_with_retry (fun _ => CallResult.err "rateLimitExceeded") 3 =
      { outcome := SubOutcome.quotaExceeded, delays := [1000, 2000], attempts := 3 } :=
  subscribe_quota_three_attempts _ (fun _ _ => ⟨"rateLimitExceeded", rfl, by decide⟩)

/-- Claim C5: whenever the first subscribe call fails with an error the chain
classifies as duplicate-subscription and `max_retries ≥ 1`, the operation
returns success immediately: one attempt, no backoff delay. -/
theorem duplicate_error_is_success (call : Nat → CallResult) (maxRetries : Nat) (msg : String)
    (hmax : 1 ≤ maxRetries) (hcall : call 0 = CallResult.err msg)
    (hclass : classify_sub_error msg = SubErrClass.duplicateClass) :
    subscribe_to_channel_with_retry call maxRetries =
      { outcome := SubOutcome.success, delays := [], attempts := 1 } := by
  unfold subscribe_to_channel_with_retry
  obtain ⟨fuel, rfl⟩ : ∃ f, maxRetries = f + 1 := ⟨maxRetries - 1, by omega⟩
  simp [subscribe_go, hcall, hclass]

/-- Witness for C5: a duplicate-subscription failure at `max_retries = 3`. -/
theorem duplicate_error_is_success_witness :
    subscribe_to_channel_with_retry (fun _ => CallResult.err "subscriptionDuplicate") 3 =
      { outcome := SubOutcome.success, delays := [], attempts := 1 } :=
  duplicate_error_is_success _ 3 "subscriptionDuplicate" (by omega) rfl (by decide)

/-- Counterexample to C3 as stated: with targets `["A", "B"]`, offset 0 and
limit 2, only "A" resolves, so one artist is returned out of a total of 2,
yet `has_more` is false — the code computes it from the requested slice
length (2), not from the number of artists actually returned (1). -/
theorem has_more_counterexample :
    c3_page.1.length = 1 ∧ c3_page.2.2 = 2 ∧ c3_page.2.1 = false
    ∧ ¬(c3_page.2.1 = true ↔ 0 + c3_page.1.length < c3_page.2.2) := by
  refine ⟨by decide, by decide, by decide, ?_⟩
  decide

/-- Claim C3 (amended): on the non-degraded path (the requested page slice is
nonempty and at least one of its names resolves), `has_more` is true exactly
when the offset plus the number of names in the requested page slice is
strictly below the total target count. -/
theorem has_more_eq_requested_slice (configArtists : List String) (file : Option FileSource)
    (resolve : String → Option Artist) (offset limit : Nat) (channels : List String)
    (hch : target_channels configArtists file = some channels)
    (hpage : (channels.drop offset).take limit ≠ [])
    (hres : ((channels.drop offset).take limit).filterMap resolve ≠ []) :
    (get_subscriptions_with_pagination configArtists file resolve offset limit).2.1 =
      decide (offset + ((channels.drop offset).take limit).length < channels.length) := by
  simp only [get_subscriptions_with_pagination, hch]
  simp [List.isEmpty_iff, hpage, hres]

/-- Witness for C3 (amended): three targets, page of two, all resolving. -/
theorem has_more_eq_requested_slice_witness :
    (get_subscriptions_with_pagination ["A", "B", "C"] none
        (fun n => some { name := n, channel_id := "id", subscriber_count := none,
                         description := none }) 0 2).2.1 =
      decide (0 + (((["A", "B", "C"] : List String).drop 0).take 2).length
        < (["A", "B", "C"] : List String).length) :=
  has_more_eq_requested_slice _ _ _ _ _ ["A", "B", "C"] rfl (by decide) (by decide)

/-- Counterexample to C6 as stated: feeding the listing/pagination flow an
artists file whose parse fails (a 101-byte name) does not abort with an
error — the flow degrades to the mock subscription list. -/
theorem parse_error_degraded_counterexample :
    is_parse_error (parse_artists_file (String.mk (List.replicate 101 (Char.ofNat 65)))) = true
    ∧ get_subscriptions_with_pagination ["Cfg"]
        (some (FileSource.content (String.mk (List.replicate 101 (Char.ofNat 65)))))
        (fun _ => none) 0 50 = (mock_subscriptions, false, 2) := by
  constructor <;> decide

/-- Claim C6 (amended): a malformed target list aborts the sync flow with an
error, but the listing/pagination flow converts the same parse failure into
the mock-data fallback (a non-error, degraded outcome) instead of aborting. -/
theorem parse_error_flow_handling (text : String) (configArtists : List String)
    (resolve : String → Option Artist) (offset limit : Nat)
    (herr : is_parse_error (parse_artists_file text) = true) :
    is_parse_error (cmd_sync_targets (some (FileSource.content text)) configArtists) = true
    ∧ get_subscriptions_with_pagination configArtists (some (FileSource.content text))
        resolve offset limit = (mock_subscriptions, false, 2) := by
  cases hp : parse_artists_file text with
  | ok artists => rw [hp] at herr; simp [is_parse_error] at herr
  | error e =>
    refine ⟨by simp [cmd_sync_targets, hp, is_parse_error], ?_⟩
    simp [get_subscriptions_with_pagination, target_channels, hp, mock_subscriptions]

/-- Witness for C6 (amended): the 101-byte name again, in both flows. -/
theorem parse_error_flow_handling_witness :
    is_parse_error (cmd_sync_targets
        (some (FileSource.content (String.mk (List.replicate 101 (Char.ofNat 65))))) []) = true
    ∧ get_subscriptions_with_pagination []
        (some (FileSource.content (String.mk (List.replicate 101 (Char.ofNat 65)))))
        (fun _ => none) 0 50 = (mock_subscriptions, false, 2) :=
  parse_error_flow_handling _ [] _ 0 50 (by decide)

/-- Counterexample to C8 as stated: the name `"a\tb"` contains whitespace (a
tab) but no space character, so the code still generates the two extra
variants (11 in total, including `"The a\tb"`), where the claim says they are
excluded for a name containing whitespace. -/
theorem variations_tab_name_counterexample :
    ("a\tb".data.any Char.isWhitespace = true)
    ∧ ("The a\tb" ∈ generate_search_variations "a\tb")
    ∧ (generate_search_variations "a\tb").length = 11 := by
  refine ⟨by decide, by decide, by decide⟩

/-- Claim C8 (amended): variant generation produces exactly the ordered list
of the name itself and the eight fixed augmentations, plus the two extra
variants `"<name>band"` and `"The <name>"` exactly when the name contains no
space character (U+0020). -/
theorem generate_search_variations_cases (artistName : String) :
    (rust_contains_char artistName (Char.ofNat 32) = false →
      generate_search_variations artistName =
        [artistName, artistName ++ " band", artistName ++ " music",
         artistName ++ " official", artistName ++ " channel", artistName ++ "VEVO",
         artistName ++ " VEVO", artistName ++ " - Topic", artistName ++ "Topic",
         artistName ++ "band", "The " ++ artistName])
    ∧ (rust_contains_char artistName (Char.ofNat 32) = true →
      generate_search_variations artistName =
        [artistName, artistName ++ " band", artistName ++ " music",
         artistName ++ " official", artistName ++ " channel", artistName ++ "VEVO",
         artistName ++ " VEVO", artistName ++ " - Topic", artistName ++ "Topic"]) := by
  constructor <;> intro h <;> simp [generate_search_variations, h]

/-- Witness for C8 (amended): both cases evaluated, at `"Tool"` and at
`"Nine Inch Nails"`. -/
theorem generate_search_variations_cases_witness :
    generate_search_variations "Tool" =
      ["Tool", "Tool band", "Tool music", "Tool official", "Tool channel",
       "ToolVEVO", "Tool VEVO", "Tool - Topic", "ToolTopic", "Toolband", "The Tool"]
    ∧ generate_search_variations "Nine Inch Nails" =
      ["Nine Inch Nails", "Nine Inch Nails band", "Nine Inch Nails music",
       "Nine Inch Nails official", "Nine Inch Nails channel", "Nine Inch NailsVEVO",
       "Nine Inch Nails VEVO", "Nine Inch Nails - Topic", "Nine Inch NailsTopic"] :=
  ⟨(generate_search_variations_cases "Tool").1 (by decide),
   (generate_search_variations_cases "Nine Inch Nails").2 (by decide)⟩

/-- The line loop succeeds and keeps exactly the non-skipped names, in order,
when every line's extracted name stays within the 100-byte limit. -/
theorem parse_lines_ok_of_within (lines : List String) :
    ∀ n, (∀ l ∈ lines, line_within_limit l = true) →
      parse_artists_lines lines n = Except.ok (lines.filterMap line_name) := by
  induction lines with
  | nil => intro n _; rfl
  | cons a rest ih =>
    intro n hall
    have ha := hall a (by simp)
    have hrest := ih (n + 1) (fun x hx => hall x (by simp [hx]))
    cases hn : line_name a with
    | none => simp [parse_artists_lines, hn, List.filterMap_cons, hrest]
    | some nm =>
      have hle : nm.utf8ByteSize ≤ 100 := by
        unfold line_within_limit at ha
        rw [hn] at ha
        exact of_decide_eq_true ha
      simp [parse_artists_lines, hn, List.filterMap_cons, hrest, Nat.not_lt.mpr hle]

/-- Any single line whose extracted name exceeds the 100-byte limit makes the
whole line loop return an error, whatever the other lines hold. -/
theorem parse_lines_error_of_over (lines : List String) :
    ∀ n l, l ∈ lines → line_within_limit l = false →
      is_parse_error (parse_artists_lines lines n) = true := by
  induction lines with
  | nil => intro n l h; simp at h
  | cons a rest ih =>
    intro n l hmem hbad
    rcases List.mem_cons.mp hmem with rfl | hmem'
    · unfold line_within_limit at hbad
      cases hn : line_name l with
      | none => rw [hn] at hbad; simp at hbad
      | some nm =>
        rw [hn] at hbad
        have hgt : nm.utf8ByteSize > 100 := by simpa using of_decide_eq_false hbad
        simp [parse_artists_lines, hn, hgt, is_parse_error]
    · have hrec := ih (n + 1) l hmem' hbad
      cases hn : line_name a with
      | none => simpa [parse_artists_lines, hn] using hrec
      | some nm =>
        by_cases hsz : nm.utf8ByteSize > 100
        · simp [parse_artists_lines, hn, hsz, is_parse_error]
        · cases hres : parse_artists_lines rest (n + 1) with
          | ok artists =>
            rw [hres] at hrec; simp [is_parse_error] at hrec
          | error e =>
            simp [parse_artists_lines, hn, hsz, hres, is_parse_error]

/-- Counterexample to C7 as stated: an entry whose name is exactly 100
characters need not parse — the limit is 100 UTF-8 bytes, so 100 copies of a
two-byte character (200 bytes) fail the whole parse. -/
theorem parse_hundred_char_name_counterexample :
    (String.mk (List.replicate 100 (Char.ofNat 233))).length = 100
    ∧ is_parse_error
        (parse_artists_file (String.mk (List.replicate 100 (Char.ofNat 233)))) = true := by
  constructor <;> decide

/-- Claim C7 (amended): with lengths measured in UTF-8 bytes (Rust
`str::len`), `parse_artists_file` succeeds — returning exactly the
non-skipped names in order, an entry with an empty name being skipped rather
than failing — whenever every entry's name is at most 100 bytes (in
particular a name of exactly 100 bytes succeeds), and any entry whose name
exceeds 100 bytes makes the entire parse return an error, not a partial
list. -/
theorem parse_artists_file_length_rules (content : String) :
    ((∀ l ∈ rust_lines content, line_within_limit l = true) →
      parse_artists_file content = Except.ok ((rust_lines content).filterMap line_name))
    ∧ (∀ l ∈ rust_lines content, line_within_limit l = false →
        is_parse_error (parse_artists_file content) = true) :=
  ⟨fun h => parse_lines_ok_of_within _ 1 h,
   fun l hl hb => parse_lines_error_of_over _ 1 l hl hb⟩

/-- Witness for C7 (amended): a file holding one exactly-100-byte name, an
empty-name entry and a comment parses to just the long name; adding one
101-byte line makes the whole parse fail. -/
theorem parse_artists_file_length_rules_witness :
    parse_artists_file
        (String.mk (List.replicate 100 (Char.ofNat 65)) ++ "\n | tag\n# note") =
      Except.ok ((rust_lines (String.mk (List.replicate 100 (Char.ofNat 65)) ++ "\n | tag\n# note")).filterMap line_name)
    ∧ is_parse_error
        (parse_artists_file (String.mk (List.replicate 101 (Char.ofNat 66)))) = true :=
  ⟨(parse_artists_file_length_rules _).1 (by decide),
   (parse_artists_file_length_rules _).2 (String.mk (List.replicate 101 (Char.ofNat 66)))
     (by decide) (by decide)⟩

/-- Counterexample to C9 as stated: when the cache database cannot be opened,
`get_cached_artist` returns the error to its caller instead of the
"no cached entry" result. -/
theorem cache_lookup_propagates_counterexample :
    is_cache_error (get_cached_artist CacheDb.unavailable 30 0 "Muse") = true
    ∧ get_cached_artist CacheDb.unavailable 30 0 "Muse" ≠ Except.ok none := by
  refine ⟨rfl, ?_⟩
  simp [get_cached_artist]

/-- Claim C9 (amended): `get_cached_artist` itself propagates I/O errors, but
its call site in `get_subscriptions_with_pagination` treats every lookup
error as a cache miss, and a missing or stale row yields the ok/none result,
which the call site also treats as a miss — so all three cases fall through
to re-resolution. -/
theorem cache_lookup_fails_closed_at_call_site (db : CacheDb) (expiryDays now : Nat)
    (key : String) :
    (∀ msg, get_cached_artist db expiryDays now key = Except.error msg →
      cache_check db expiryDays now false key = none)
    ∧ (∀ rows, db = CacheDb.store rows →
        (∀ row ∈ rows, ¬(row.search_name = key
          ∧ now < row.cached_at + expiryDays * 86400)) →
        get_cached_artist db expiryDays now key = Except.ok none)
    ∧ (get_cached_artist db expiryDays now key = Except.ok none →
      cache_check db expiryDays now false key = none) := by
  refine ⟨fun msg h => ?_, fun rows hdb hall => ?_, fun h => ?_⟩
  · simp [cache_check, h]
  · subst hdb
    have hfind : rows.find? (fun row => row.search_name == key
        && row_is_fresh expiryDays now row) = none := by
      rw [List.find?_eq_none]
      intro row hrow
      have := hall row hrow
      simp [row_is_fresh]
      intro hname
      exact Nat.not_lt.mp (fun hlt => this ⟨hname, hlt⟩)
    simp [get_cached_artist, hfind]
  · simp [cache_check, h]

/-- Witness for C9 (amended): an unavailable database at the call site, and a
store whose only row is stale. -/
theorem cache_lookup_fails_closed_witness :
    cache_check CacheDb.unavailable 30 0 false "Muse" = none
    ∧ get_cached_artist
        (CacheDb.store [{ search_name := "Muse", name := "Muse", channel_id := "UC1",
                          subscriber_count := none, description := none, cached_at := 0 }])
        30 (30 * 86400) "Muse" = Except.ok none :=
  ⟨(cache_lookup_fails_closed_at_call_site CacheDb.unavailable 30 0 "Muse").1
      "unable to open database" rfl,
   (cache_lookup_fails_closed_at_call_site _ 30 (30 * 86400) "Muse").2.1
      [{ search_name := "Muse", name := "Muse", channel_id := "UC1",
         subscriber_count := none, description := none, cached_at := 0 }] rfl (by decide)⟩

/-- Claim C10: `get_my_subscriptions` returns exactly the artist list of
`get_subscriptions_with_pagination(0, 1000, None, false, false)` over the
config artists, and (whenever the config list fits in the 1000-limit page and
at least one name resolves) that list is precisely the resolution of the
config artists — the current subscriptions consumed by the sync planner come
from the config list, not from a remote subscription listing. -/
theorem get_my_subscriptions_from_config (configArtists : List String)
    (resolve : String → Option Artist) :
    get_my_subscriptions configArtists resolve =
      (get_subscriptions_with_pagination configArtists none resolve 0 1000).1
    ∧ (configArtists.length ≤ 1000 → configArtists.filterMap resolve ≠ [] →
        get_my_subscriptions configArtists resolve = configArtists.filterMap resolve) := by
  refine ⟨rfl, fun hlen hres => ?_⟩
  have hne : configArtists ≠ [] := by
    intro h; subst h; simp at hres
  unfold get_my_subscriptions get_subscriptions_with_pagination target_channels
  simp [List.take_of_length_le hlen, List.isEmpty_iff, hne, hres]

/-- Witness for C10: a one-name config list whose name resolves. -/
theorem get_my_subscriptions_from_config_witness :
    get_my_subscriptions ["Muse"]
        (fun n => some { name := n, channel_id := "UC1", subscriber_count := none,
                         description := none }) =
      (["Muse"] : List String).filterMap
        (fun n => some { name := n, channel_id := "UC1", subscriber_count := none,
                         description := none }) :=
  (get_my_subscriptions_from_config _ _).2 (by decide) (by decide)
